import Mathlib

/-!
Verification of the sexagenary-calendar calculation engine
(`backend/app/services/engine_v2.py` and its API wrapper
`backend/app/services/saju_engine.py`).

The Python code is shallowly embedded: machine integers become `ℕ`/`ℤ`
(Python `//` on ints is `Int.fdiv`, Python `%` with a positive divisor is
`Int.emod`), float degree arithmetic becomes `ℚ` (Python `%` on floats with a
positive divisor is floored: `x - m * ⌊x / m⌋`), the external ephemeris
provider becomes an explicit function argument, and the `try/except` of
`calculate` becomes `Except CalculationError`.
-/

namespace Saju

/-! ## Constant tables (engine_v2.py) -/

/-- `GAN = list("갑을병정무기경신임계")` -/
def GAN : List String := ["갑", "을", "병", "정", "무", "기", "경", "신", "임", "계"]

/-- `JI = list("자축인묘진사오미신유술해")` -/
def JI : List String := ["자", "축", "인", "묘", "진", "사", "오", "미", "신", "유", "술", "해"]

/-- `GAN_HANJA = list("甲乙丙丁戊己庚辛壬癸")` -/
def GAN_HANJA : List String := ["甲", "乙", "丙", "丁", "戊", "己", "庚", "辛", "壬", "癸"]

/-- `JI_HANJA = list("子丑寅卯辰巳午未申酉戌亥")` -/
def JI_HANJA : List String := ["子", "丑", "寅", "卯", "辰", "巳", "午", "未", "申", "酉", "戌", "亥"]

/-- `GAN_TO_ELEMENT` dict. -/
def GAN_TO_ELEMENT : List (String × String) :=
  [("갑", "목"), ("을", "목"), ("병", "화"), ("정", "화"), ("무", "토"),
   ("기", "토"), ("경", "금"), ("신", "금"), ("임", "수"), ("계", "수")]

/-- `JI_TO_ELEMENT` dict. -/
def JI_TO_ELEMENT : List (String × String) :=
  [("자", "수"), ("축", "토"), ("인", "목"), ("묘", "목"), ("진", "토"), ("사", "화"),
   ("오", "화"), ("미", "토"), ("신", "금"), ("유", "금"), ("술", "토"), ("해", "수")]

/-- `DAY_MASTER_DESC` dict. -/
def DAY_MASTER_DESC : List (String × String) :=
  [("갑", "큰 나무(甲木) - 곧고 뻗어나가는 성장의 기운"),
   ("을", "작은 나무(乙木) - 유연하고 적응력 있는 기운"),
   ("병", "태양(丙火) - 밝고 뜨거운 열정의 기운"),
   ("정", "촛불(丁火) - 따뜻하고 은은한 빛의 기운"),
   ("무", "큰 산(戊土) - 안정적이고 묵직한 기운"),
   ("기", "논밭(己土) - 포용하고 키워내는 기운"),
   ("경", "바위/쇠(庚金) - 강하고 결단력 있는 기운"),
   ("신", "보석(辛金) - 섬세하고 빛나는 기운"),
   ("임", "큰 물(壬水) - 넓고 깊은 지혜의 기운"),
   ("계", "이슬/비(癸水) - 촉촉하고 스며드는 기운")]

/-- Python dict lookup `GAN_TO_ELEMENT[g]`; the key is always present at the
call sites, so the `""` default is never hit. -/
def gan_to_element (g : String) : String := (GAN_TO_ELEMENT.lookup g).getD ""

/-- Python dict lookup `JI_TO_ELEMENT[j]`. -/
def ji_to_element (j : String) : String := (JI_TO_ELEMENT.lookup j).getD ""

/-- Python dict lookup `DAY_MASTER_DESC[g]`. -/
def day_master_desc (g : String) : String := (DAY_MASTER_DESC.lookup g).getD ""

/-- `SOLAR_TERM_NAMES` (indexed by month-branch index). -/
def SOLAR_TERM_NAMES : List String :=
  ["동지~소한 (자월)", "소한~입춘 (축월)", "입춘~경칩 (인월)", "경칩~청명 (묘월)",
   "청명~입하 (진월)", "입하~망종 (사월)", "망종~소서 (오월)", "소서~입추 (미월)",
   "입추~백로 (신월)", "백로~한로 (유월)", "한로~입동 (술월)", "입동~동지 (해월)"]

/-- One entry of `HOUR_OPTIONS`. -/
structure HourOption where
  index : ℕ
  ji : String
  ji_hanja : String
  start : String
  end_ : String
deriving Repr, DecidableEq

/-- `HOUR_OPTIONS` list. -/
def HOUR_OPTIONS : List HourOption :=
  [⟨0, "자", "子", "23:00", "00:59"⟩, ⟨1, "축", "丑", "01:00", "02:59"⟩,
   ⟨2, "인", "寅", "03:00", "04:59"⟩, ⟨3, "묘", "卯", "05:00", "06:59"⟩,
   ⟨4, "진", "辰", "07:00", "08:59"⟩, ⟨5, "사", "巳", "09:00", "10:59"⟩,
   ⟨6, "오", "午", "11:00", "12:59"⟩, ⟨7, "미", "未", "13:00", "14:59"⟩,
   ⟨8, "신", "申", "15:00", "16:59"⟩, ⟨9, "유", "酉", "17:00", "18:59"⟩,
   ⟨10, "술", "戌", "19:00", "20:59"⟩, ⟨11, "해", "亥", "21:00", "22:59"⟩]

/-- `class CalculationError(Exception)` — the single error kind raised by
`ScientificSajuEngine.calculate`. -/
structure CalculationError where
  msg : String
deriving Repr, DecidableEq

/-! ## Gregorian civil-date arithmetic (CPython `datetime.date` ordinal) -/

/-- Gregorian leap-year rule used by `datetime`. -/
def is_leap (year : ℕ) : Bool := (year % 4 == 0 && year % 100 != 0) || year % 400 == 0

/-- Length of a month in the proleptic Gregorian calendar (0 for an invalid
month number, which `valid_datetime` rules out). -/
def days_in_month (year month : ℕ) : ℕ :=
  match month with
  | 1 => 31
  | 2 => if is_leap year then 29 else 28
  | 3 => 31
  | 4 => 30
  | 5 => 31
  | 6 => 30
  | 7 => 31
  | 8 => 31
  | 9 => 30
  | 10 => 31
  | 11 => 30
  | 12 => 31
  | _ => 0

/-- Days in `year` strictly before the first of `month`. -/
def days_before_month (year month : ℕ) : ℕ :=
  ((List.range (month - 1)).map (fun i => days_in_month year (i + 1))).sum

/-- Days strictly before January 1 of `year` counting from 0001-01-01. -/
def days_before_year (year : ℕ) : ℕ :=
  (year - 1) * 365 + (year - 1) / 4 - (year - 1) / 100 + (year - 1) / 400

/-- Proleptic Gregorian ordinal of a civil date (0001-01-01 is day 1), as in
CPython's `date.toordinal`; `(dt_a - dt_b).days` for midnight datetimes is the
difference of these ordinals. -/
def toordinal (year month day : ℕ) : ℕ :=
  days_before_year year + days_before_month year month + day

/-- `self.ANCHOR_IDX = 54` — 2000-01-01 is pillar 54 of the 60-cycle. -/
def ANCHOR_IDX : ℕ := 54

/-- `days_diff = (target_dt - self.ANCHOR_DATE).days` with
`ANCHOR_DATE = datetime(2000, 1, 1)`. -/
def day_diff (year month day : ℕ) : ℤ :=
  (toordinal year month day : ℤ) - toordinal 2000 1 1

/-- `curr_day_idx = (self.ANCHOR_IDX + days_diff) % 60` (Python `%` on ints
with positive divisor = `Int.emod`, always non-negative). -/
def day_cycle (year month day : ℕ) : ℕ :=
  (((ANCHOR_IDX : ℤ) + day_diff year month day) % 60).toNat

/-! ## Solar longitude plumbing (`_get_solar_longitude`) -/

/-- The KST wall-clock instant `datetime(year, month, day, hour, minute)` as a
whole-minute count on the proleptic Gregorian timeline. -/
def kst_minutes (year month day hour minute : ℕ) : ℤ :=
  (toordinal year month day : ℤ) * 1440 + hour * 60 + minute

/-- `dt_utc = dt_kst - timedelta(hours=9)` — the civil input is always
interpreted as Asia/Seoul time, nine hours ahead of UTC. -/
def utc_minutes (year month day hour minute : ℕ) : ℤ :=
  kst_minutes year month day hour minute - 540

/-- Python `%` on degree values (floats, here `ℚ`) with a positive divisor:
floored modulo, `x - m * floor (x / m)`. -/
def qmod (x m : ℚ) : ℚ := x - m * (⌊x / m⌋ : ℤ)

/-! ## `_get_solar_term_index` -/

/-- `_get_solar_term_index`: longitude → (month-branch index, term name).
`int(normalized / 30)` truncates toward zero, which is the floor since
`normalized ∈ [0, 360)`. -/
def get_solar_term_index (solar_longitude : ℚ) : ℕ × String :=
  let deg := solar_longitude
  let normalized := qmod (deg + 45) 360
  let term_idx : ℤ := ⌊normalized / 30⌋
  let month_ji_idx := ((term_idx + 2) % 12).toNat
  (month_ji_idx, SOLAR_TERM_NAMES.getD month_ji_idx "")

/-! ## `_is_near_boundary` -/

/-- `diff = abs((deg - boundary + 180) % 360 - 180)` — absolute circular
distance from `deg` to `boundary` degrees. -/
def boundary_diff (deg : ℚ) (boundary : ℕ) : ℚ :=
  |qmod (deg - boundary + 180) 360 - 180|

/-- `range(0, 360, 15)`. -/
def BOUNDARIES : List ℕ :=
  [0, 15, 30, 45, 60, 75, 90, 105, 120, 135, 150, 165,
   180, 195, 210, 225, 240, 255, 270, 285, 300, 315, 330, 345]

/-- The `for boundary in range(0, 360, 15)` loop: first boundary whose
distance is within 1.5 degrees, if any. -/
def boundary_scan (deg : ℚ) : List ℕ → Option ℕ
  | [] => none
  | b :: rest => if boundary_diff deg b ≤ 3 / 2 then some b else boundary_scan deg rest

/-- `_is_near_boundary`: returns `(True, "near_ipchun")` for the 315°
boundary, `(True, "near_term_change")` for any other boundary within 1.5°,
and `(False, None)` otherwise. -/
def is_near_boundary (deg : ℚ) : Bool × Option String :=
  match boundary_scan deg BOUNDARIES with
  | some b => (true, some (if b == 315 then "near_ipchun" else "near_term_change"))
  | none => (false, none)

/-! ## Output record of `ScientificSajuEngine.calculate` -/

/-- The dictionary built by `_make_pillar`. -/
structure Pillar where
  ganji : String
  gan : String
  ji : String
  gan_hanja : String
  ji_hanja : String
  gan_element : String
  ji_element : String
  gan_index : ℕ
  ji_index : ℕ
deriving Repr, DecidableEq

/-- `_make_pillar(gan_idx, ji_idx)`; list indexing is always in range at the
call sites, so the `""` defaults are never hit. -/
def make_pillar (gan_idx ji_idx : ℕ) : Pillar :=
  { ganji := GAN.getD gan_idx "" ++ JI.getD ji_idx ""
    gan := GAN.getD gan_idx ""
    ji := JI.getD ji_idx ""
    gan_hanja := GAN_HANJA.getD gan_idx ""
    ji_hanja := JI_HANJA.getD ji_idx ""
    gan_element := gan_to_element (GAN.getD gan_idx "")
    ji_element := ji_to_element (JI.getD ji_idx "")
    gan_index := gan_idx
    ji_index := ji_idx }

/-- Models Python `round(solar_lon, 2)`. Python uses round-half-to-even on
floats; the development only ever compares this value across calls with
identical arguments, where any fixed convention agrees, so round-half-up is
used. -/
def round2 (x : ℚ) : ℚ := (⌊x * 100 + 1 / 2⌋ : ℚ) / 100

/-- The `meta` sub-dictionary of the result. -/
structure Meta where
  solar_time_applied : Bool
  solar_longitude_deg : ℚ
  solar_term_idx : ℕ
  solar_term_name : String
  is_boundary : Bool
  boundary_reason : Option String
  calculation_method : String
  timezone : String
deriving Repr, DecidableEq

/-- The result dictionary of `ScientificSajuEngine.calculate`. -/
structure SajuResult where
  year_pillar : Pillar
  month_pillar : Pillar
  day_pillar : Pillar
  hour_pillar : Option Pillar
  hour_range : Option String
  day_master : String
  day_master_element : String
  day_master_description : String
  meta : Meta
deriving Repr, DecidableEq

/-- The range/validity checks performed by the `datetime` constructors inside
`calculate` (`datetime(year, month, day, calc_hour, minute)` and
`datetime(year, month, day)` raise `ValueError` outside these bounds;
`MINYEAR = 1`, `MAXYEAR = 9999`). -/
def valid_datetime (year month day hour minute : ℕ) : Bool :=
  decide (1 ≤ year) && decide (year ≤ 9999) &&
  decide (1 ≤ month) && decide (month ≤ 12) &&
  decide (1 ≤ day) && decide (day ≤ days_in_month year month) &&
  decide (hour ≤ 23) && decide (minute ≤ 59)

/-- The body of `ScientificSajuEngine.calculate` after the solar longitude has
been obtained (steps 2–5 and the result dictionary, lines 205–283).
`solar_lon` is the value returned by the ephemeris provider. -/
def calculate_core (solar_lon : ℚ) (year month day : ℕ) (hour : Option ℕ)
    (minute : ℕ) (use_solar_time : Bool) : SajuResult :=
  let solar := get_solar_term_index solar_lon
  let solar_idx := solar.1
  let solar_term := solar.2
  let boundary := is_near_boundary solar_lon
  -- year pillar: `if month <= 2 and solar_idx <= 1: cal_year = year - 1`
  let cal_year : ℤ := if month ≤ 2 ∧ solar_idx ≤ 1 then (year : ℤ) - 1 else (year : ℤ)
  let year_gan_idx := ((cal_year - 4) % 10).toNat
  let year_ji_idx := ((cal_year - 4) % 12).toNat
  -- month pillar
  let month_ji_idx := solar_idx
  let start_gan_idx := (year_gan_idx % 5) * 2 + 2
  let gap0 : ℤ := (month_ji_idx : ℤ) - 2
  let gap : ℤ := if gap0 < 0 then gap0 + 12 else gap0
  let month_gan_idx := (((start_gan_idx : ℤ) + gap) % 10).toNat
  -- day pillar
  let curr_day_idx := day_cycle year month day
  let day_gan_idx := curr_day_idx % 10
  let day_ji_idx := curr_day_idx % 12
  -- hour pillar (only when an hour was supplied)
  let hour_data : Option (ℕ × ℕ × String) :=
    match hour with
    | none => none
    | some h =>
      let total : ℤ := (h : ℤ) * 60 + minute
      let adjusted_minute : ℤ :=
        if use_solar_time then
          let a := total - 30
          if a < 0 then a + 1440 else a
        else total
      let eff_hour := adjusted_minute.fdiv 60
      let hour_ji_idx := (((eff_hour + 1).fdiv 2) % 12).toNat
      let start_time_gan := (day_gan_idx % 5) * 2
      let hour_gan_idx := (start_time_gan + hour_ji_idx) % 10
      let h_opt := HOUR_OPTIONS.getD hour_ji_idx ⟨0, "", "", "", ""⟩
      some (hour_gan_idx, hour_ji_idx, h_opt.start ++ "~" ++ h_opt.end_)
  { year_pillar := make_pillar year_gan_idx year_ji_idx
    month_pillar := make_pillar month_gan_idx month_ji_idx
    day_pillar := make_pillar day_gan_idx day_ji_idx
    hour_pillar := hour_data.map (fun t => make_pillar t.1 t.2.1)
    hour_range := hour_data.map (fun t => t.2.2)
    day_master := GAN.getD day_gan_idx ""
    day_master_element := gan_to_element (GAN.getD day_gan_idx "")
    day_master_description := day_master_desc (GAN.getD day_gan_idx "")
    meta := { solar_time_applied := use_solar_time
              solar_longitude_deg := round2 solar_lon
              solar_term_idx := solar_idx
              solar_term_name := solar_term
              is_boundary := boundary.1
              boundary_reason := boundary.2
              calculation_method := "ephem_astronomical"
              timezone := "Asia/Seoul" } }

/-- `ScientificSajuEngine.calculate`. `lon_at` is the external ephemeris
provider (`ephem`), queried at the UTC instant in minutes; every internal
failure — a provider failure or a `ValueError` from out-of-range date/time
values — is wrapped into the single error kind `CalculationError`
(`except Exception as e: raise CalculationError(...)`), and no partial result
is ever produced. `calc_hour = hour if hour is not None else 12`. -/
def calculate (lon_at : ℤ → Except String ℚ) (year month day : ℕ)
    (hour : Option ℕ) (minute : ℕ) (use_solar_time : Bool) :
    Except CalculationError SajuResult :=
  let calc_hour := hour.getD 12
  if valid_datetime year month day calc_hour minute then
    match lon_at (utc_minutes year month day calc_hour minute) with
    | Except.error e => Except.error ⟨"사주 계산 실패: " ++ e⟩
    | Except.ok solar_lon =>
      Except.ok (calculate_core solar_lon year month day hour minute use_solar_time)
  else
    Except.error ⟨"사주 계산 실패: invalid date or time"⟩

/-! ## API wrapper (`saju_engine.py`)

The pydantic schemas (`app/models/schemas.py`) are not part of the provided
sources; their shapes are modelled from the spec's output contract and from
the constructor calls in `SajuEngine.calculate`. -/

/-- Modelled from the spec: `schemas.Pillar` — the fields set by
`SajuEngine._to_pillar`. -/
structure ApiPillar where
  gan : String
  ji : String
  ganji : String
  gan_element : String
  ji_element : String
  gan_index : ℕ
  ji_index : ℕ
deriving Repr, DecidableEq

/-- Modelled from the spec: `schemas.SajuWonGuk` — four pillars, hour
optional. -/
structure SajuWonGuk where
  year_pillar : ApiPillar
  month_pillar : ApiPillar
  day_pillar : ApiPillar
  hour_pillar : Option ApiPillar
deriving Repr, DecidableEq

/-- Modelled from the spec: `schemas.QualityInfo` — the fields set in
`SajuEngine.calculate`. -/
structure QualityInfo where
  has_birth_time : Bool
  solar_term_boundary : Bool
  boundary_reason : Option String
  timezone : String
  calculation_method : String
deriving Repr, DecidableEq

/-- Modelled from the spec: `schemas.DaeunInfo` — the fields set in
`SajuEngine._calc_daeun`. -/
structure DaeunInfo where
  start_age : ℕ
  direction : String
  current_daeun : Option String
deriving Repr, DecidableEq

/-- `CalculationResult` dataclass of `saju_engine.py`. -/
structure CalculationResult where
  saju : SajuWonGuk
  day_master : String
  day_master_element : String
  day_master_description : String
  daeun : Option DaeunInfo
  quality : QualityInfo
deriving Repr, DecidableEq

/-- `SajuEngine._to_pillar`. -/
def to_pillar (p : Pillar) : ApiPillar :=
  { gan := p.gan
    ji := p.ji
    ganji := p.ganji
    gan_element := p.gan_element
    ji_element := p.ji_element
    gan_index := p.gan_index
    ji_index := p.ji_index }

/-- `SajuEngine._calc_daeun`. Python's `if not gender` is true both for
`None` and for the empty string. -/
def calc_daeun (year_gan_idx : ℕ) (gender : Option String) : Option DaeunInfo :=
  match gender with
  | none => none
  | some g =>
    if g = "" then none
    else
      let is_yang_year := year_gan_idx % 2 == 0
      let is_male := ["male", "남", "남성"].contains g.toLower
      let direction :=
        if (is_male && is_yang_year) || (!is_male && !is_yang_year) then "forward"
        else "backward"
      some { start_age := 3, direction := direction, current_daeun := none }

/-- `SajuEngine.calculate`: delegates to the scientific engine, converts the
pillars, copies `timezone` verbatim into `QualityInfo`, and computes the
daeun info from the year stem and gender. A `CalculationError` from the
engine propagates unchanged. -/
def saju_engine_calculate (lon_at : ℤ → Except String ℚ) (year month day : ℕ)
    (hour : Option ℕ) (minute : ℕ) (gender : Option String) (timezone : String)
    (use_solar_time : Bool) : Except CalculationError CalculationResult :=
  (calculate lon_at year month day hour minute use_solar_time).map fun result =>
    { saju := { year_pillar := to_pillar result.year_pillar
                month_pillar := to_pillar result.month_pillar
                day_pillar := to_pillar result.day_pillar
                hour_pillar := result.hour_pillar.map to_pillar }
      day_master := result.day_master
      day_master_element := result.day_master_element
      day_master_description := result.day_master_description
      daeun := calc_daeun result.year_pillar.gan_index gender
      quality := { has_birth_time := hour.isSome
                   solar_term_boundary := result.meta.is_boundary
                   boundary_reason := result.meta.boundary_reason
                   timezone := timezone
                   calculation_method := result.meta.calculation_method } }

/-! ## Spec-side definitions used by the claim statements -/

/-- The pillar invariant claimed by the spec: indices in range and matching
yin/yang parity (the 60 valid pairs of the sexagenary cycle). -/
def pillar_ok (p : Pillar) : Prop :=
  p.gan_index < 10 ∧ p.ji_index < 12 ∧ p.gan_index % 2 = p.ji_index % 2

/-- The year-pillar rule in the spec's words: the sexagenary year equals the
civil year unless the civil month is January or February and the resolved
month-branch index is 0 or 1, in which case it is the previous civil year. -/
def spec_sexagenary_year (year month month_branch : ℕ) : ℤ :=
  if (month = 1 ∨ month = 2) ∧ (month_branch = 0 ∨ month_branch = 1) then (year : ℤ) - 1
  else (year : ℤ)

/-- The hour-pillar minute arithmetic in the spec's words: `hour*60 + minute`,
minus 30 when `use_solar_time`, wrapped by + 1440 when negative. -/
def spec_adjusted_minutes (hour minute : ℕ) (use_solar_time : Bool) : ℤ :=
  let total : ℤ := (hour : ℤ) * 60 + minute
  if use_solar_time then
    if total - 30 < 0 then total - 30 + 1440 else total - 30
  else total

/-- `effective_hour = adjusted_minutes // 60` (Python floor division). -/
def spec_effective_hour (hour minute : ℕ) (use_solar_time : Bool) : ℤ :=
  (spec_adjusted_minutes hour minute use_solar_time).fdiv 60

/-- `hour_branch_index = ((effective_hour + 1) // 2) mod 12` per the spec. -/
def spec_hour_branch (hour minute : ℕ) (use_solar_time : Bool) : ℕ :=
  (((spec_effective_hour hour minute use_solar_time + 1).fdiv 2) % 12).toNat

/-- Everything in a `SajuResult` except the hour pillar, the hour range and
the echoed `solar_time_applied` flag. -/
def strip_solar_toggle (r : SajuResult) :=
  (r.year_pillar, r.month_pillar, r.day_pillar, r.day_master, r.day_master_element,
   r.day_master_description, r.meta.solar_longitude_deg, r.meta.solar_term_idx,
   r.meta.solar_term_name, r.meta.is_boundary, r.meta.boundary_reason,
   r.meta.calculation_method, r.meta.timezone)

/-- Everything in a `CalculationResult` except the echoed `timezone` field. -/
def strip_timezone (cr : CalculationResult) :=
  (cr.saju, cr.day_master, cr.day_master_element, cr.day_master_description, cr.daeun,
   cr.quality.has_birth_time, cr.quality.solar_term_boundary, cr.quality.boundary_reason,
   cr.quality.calculation_method)

/-! ## Helper lemmas -/

theorem calculate_ok_iff (lon_at : ℤ → Except String ℚ) (year month day : ℕ)
    (hour : Option ℕ) (minute : ℕ) (ust : Bool) (r : SajuResult) :
    calculate lon_at year month day hour minute ust = Except.ok r ↔
      valid_datetime year month day (hour.getD 12) minute = true ∧
      ∃ lon, lon_at (utc_minutes year month day (hour.getD 12) minute) = Except.ok lon ∧
        r = calculate_core lon year month day hour minute ust := by
  simp only [calculate]
  by_cases hv : valid_datetime year month day (hour.getD 12) minute = true
  · rw [if_pos hv]
    cases hl : lon_at (utc_minutes year month day (hour.getD 12) minute) with
    | error e => simp [hl, hv]
    | ok lon => simp [hl, hv, eq_comm]
  · rw [if_neg hv]
    simp [hv]

theorem term_idx_cast (deg : ℚ) :
    ((get_solar_term_index deg).1 : ℤ) = (⌊(deg + 45) / 30⌋ + 2) % 12 := by
  have hfloor : ⌊qmod (deg + 45) 360 / 30⌋
      = ⌊(deg + 45) / 30⌋ - 12 * ⌊(deg + 45) / 360⌋ := by
    have h : qmod (deg + 45) 360 / 30
        = (deg + 45) / 30 - ((12 * ⌊(deg + 45) / 360⌋ : ℤ) : ℚ) := by
      unfold qmod
      push_cast
      ring
    rw [h, Int.floor_sub_int]
  have hsplit : ⌊(deg + 45) / 30⌋ - 12 * ⌊(deg + 45) / 360⌋ + 2
      = ⌊(deg + 45) / 30⌋ + 2 + 12 * (-⌊(deg + 45) / 360⌋) := by ring
  simp only [get_solar_term_index, hfloor, hsplit, Int.add_mul_emod_self_left]
  have hnn : 0 ≤ (⌊(deg + 45) / 30⌋ + 2) % 12 :=
    Int.emod_nonneg _ (by norm_num)
  omega

theorem term_fst_lt (deg : ℚ) : (get_solar_term_index deg).1 < 12 := by
  have h := term_idx_cast deg
  omega

theorem core_pillar_ok (lon : ℚ) (year month day : ℕ) (hour : Option ℕ)
    (minute : ℕ) (ust : Bool) :
    pillar_ok (calculate_core lon year month day hour minute ust).year_pillar ∧
    pillar_ok (calculate_core lon year month day hour minute ust).month_pillar ∧
    pillar_ok (calculate_core lon year month day hour minute ust).day_pillar ∧
    ∀ hp, (calculate_core lon year month day hour minute ust).hour_pillar = some hp →
      pillar_ok hp := by
  have hs : (get_solar_term_index lon).1 < 12 := term_fst_lt lon
  simp only [calculate_core, make_pillar, pillar_ok]
  refine ⟨?_, ?_, ?_, ?_⟩
  · split_ifs <;> omega
  · split_ifs <;> omega
  · omega
  · cases hour with
    | none => simp
    | some h => simp; omega

/-! ## Claim theorems -/

/-- C1: the day pillar returned by `calculate` satisfies
`day_cycle_index = (54 + day_difference) mod 60` with the exact signed
whole-day count from 2000-01-01 and a floored (non-negative) modulo;
`day_stem_index = day_cycle_index mod 10`,
`day_branch_index = day_cycle_index mod 12`; and 2000-01-01 itself maps to
cycle index 54. -/
theorem calculate_day_pillar (lon_at : ℤ → Except String ℚ) (year month day : ℕ)
    (hour : Option ℕ) (minute : ℕ) (ust : Bool) (r : SajuResult)
    (h : calculate lon_at year month day hour minute ust = Except.ok r) :
    r.day_pillar.gan_index = day_cycle year month day % 10 ∧
    r.day_pillar.ji_index = day_cycle year month day % 12 ∧
    (day_cycle year month day : ℤ) = ((ANCHOR_IDX : ℤ) + day_diff year month day) % 60 ∧
    0 ≤ ((ANCHOR_IDX : ℤ) + day_diff year month day) % 60 ∧
    day_cycle 2000 1 1 = 54 := by
  obtain ⟨-, lon, -, rfl⟩ := (calculate_ok_iff lon_at year month day hour minute ust r).1 h
  have hnn : 0 ≤ ((ANCHOR_IDX : ℤ) + day_diff year month day) % 60 :=
    Int.emod_nonneg _ (by norm_num)
  refine ⟨rfl, rfl, ?_, hnn, by decide⟩
  simp [day_cycle, Int.toNat_of_nonneg hnn]

/-- C1 witness: the day-pillar theorem applied at 2000-01-01. -/
theorem calculate_day_pillar_witness :
    (calculate_core 280 2000 1 1 none 0 true).day_pillar.gan_index = day_cycle 2000 1 1 % 10 ∧
    (calculate_core 280 2000 1 1 none 0 true).day_pillar.ji_index = day_cycle 2000 1 1 % 12 ∧
    (day_cycle 2000 1 1 : ℤ) = ((ANCHOR_IDX : ℤ) + day_diff 2000 1 1) % 60 ∧
    0 ≤ ((ANCHOR_IDX : ℤ) + day_diff 2000 1 1) % 60 ∧
    day_cycle 2000 1 1 = 54 :=
  calculate_day_pillar (fun _ => Except.ok 280) 2000 1 1 none 0 true
    (calculate_core 280 2000 1 1 none 0 true) rfl

/-- C2: every pillar produced by `calculate` — year, month, day, and hour when
present — has stem index `< 10`, branch index `< 12`, and matching yin/yang
parity (`stem % 2 = branch % 2`), i.e. is one of the 60 valid sexagenary
pairs. -/
theorem calculate_pillar_parity (lon_at : ℤ → Except String ℚ) (year month day : ℕ)
    (hour : Option ℕ) (minute : ℕ) (ust : Bool) (r : SajuResult)
    (h : calculate lon_at year month day hour minute ust = Except.ok r) :
    pillar_ok r.year_pillar ∧ pillar_ok r.month_pillar ∧ pillar_ok r.day_pillar ∧
    ∀ hp, r.hour_pillar = some hp → pillar_ok hp := by
  obtain ⟨-, lon, -, rfl⟩ := (calculate_ok_iff lon_at year month day hour minute ust r).1 h
  exact core_pillar_ok lon year month day hour minute ust

/-- C2 witness: the parity theorem applied at a concrete call with an hour. -/
theorem calculate_pillar_parity_witness :
    pillar_ok (calculate_core 100 2000 1 1 (some 1) 0 true).year_pillar ∧
    pillar_ok (calculate_core 100 2000 1 1 (some 1) 0 true).month_pillar ∧
    pillar_ok (calculate_core 100 2000 1 1 (some 1) 0 true).day_pillar ∧
    pillar_ok ((calculate_core 100 2000 1 1 (some 1) 0 true).hour_pillar.getD
      (make_pillar 0 0)) := by
  have H := calculate_pillar_parity (fun _ => Except.ok 100) 2000 1 1 (some 1) 0 true
    (calculate_core 100 2000 1 1 (some 1) 0 true) rfl
  exact ⟨H.1, H.2.1, H.2.2.1, H.2.2.2 _ rfl⟩

/-- C3: the year pillar's sexagenary year equals the civil year except in
January/February with a resolved month branch of 0 or 1, where it is the
previous civil year; stem = `(sexagenary_year − 4) mod 10`,
branch = `(sexagenary_year − 4) mod 12`. -/
theorem calculate_year_pillar (lon_at : ℤ → Except String ℚ) (year month day : ℕ)
    (hour : Option ℕ) (minute : ℕ) (ust : Bool) (r : SajuResult)
    (hm : 1 ≤ month)
    (h : calculate lon_at year month day hour minute ust = Except.ok r) :
    r.year_pillar.gan_index
      = ((spec_sexagenary_year year month r.month_pillar.ji_index - 4) % 10).toNat ∧
    r.year_pillar.ji_index
      = ((spec_sexagenary_year year month r.month_pillar.ji_index - 4) % 12).toNat := by
  obtain ⟨-, lon, -, rfl⟩ := (calculate_ok_iff lon_at year month day hour minute ust r).1 h
  have he : spec_sexagenary_year year month
      (calculate_core lon year month day hour minute ust).month_pillar.ji_index
      = (if month ≤ 2 ∧ (get_solar_term_index lon).1 ≤ 1 then (year : ℤ) - 1
         else (year : ℤ)) := by
    show spec_sexagenary_year year month (get_solar_term_index lon).1 = _
    unfold spec_sexagenary_year
    split_ifs <;> first | rfl | omega
  rw [he]
  exact ⟨rfl, rfl⟩

/-- C3 witness: the year-pillar theorem applied at 2024-02-10. -/
theorem calculate_year_pillar_witness :
    (calculate_core 100 2024 2 10 none 0 true).year_pillar.gan_index
      = ((spec_sexagenary_year 2024 2
          (calculate_core 100 2024 2 10 none 0 true).month_pillar.ji_index - 4) % 10).toNat ∧
    (calculate_core 100 2024 2 10 none 0 true).year_pillar.ji_index
      = ((spec_sexagenary_year 2024 2
          (calculate_core 100 2024 2 10 none 0 true).month_pillar.ji_index - 4) % 12).toNat :=
  calculate_year_pillar (fun _ => Except.ok 100) 2024 2 10 none 0 true
    (calculate_core 100 2024 2 10 none 0 true) (by decide) rfl

/-- C4: the month stem equals `(start_stem + gap) mod 10` with
`start_stem = (year_stem mod 5) * 2 + 2` and `gap = (month_branch − 2) mod 12`
(floored modulo) — the code's add-12-when-negative adjustment is exactly this
floored modulo. -/
theorem calculate_month_stem (lon_at : ℤ → Except String ℚ) (year month day : ℕ)
    (hour : Option ℕ) (minute : ℕ) (ust : Bool) (r : SajuResult)
    (h : calculate lon_at year month day hour minute ust = Except.ok r) :
    r.month_pillar.gan_index
      = ((((r.year_pillar.gan_index : ℤ) % 5) * 2 + 2
          + ((r.month_pillar.ji_index : ℤ) - 2) % 12) % 10).toNat := by
  obtain ⟨-, lon, -, rfl⟩ := (calculate_ok_iff lon_at year month day hour minute ust r).1 h
  have hs := term_fst_lt lon
  have hgap : (if ((get_solar_term_index lon).1 : ℤ) - 2 < 0
        then ((get_solar_term_index lon).1 : ℤ) - 2 + 12
        else ((get_solar_term_index lon).1 : ℤ) - 2)
      = (((get_solar_term_index lon).1 : ℤ) - 2) % 12 := by
    split_ifs <;> omega
  simp only [calculate_core, make_pillar]
  rw [hgap]
  push_cast
  ring_nf

/-- C4 witness: the month-stem theorem applied at a concrete call. -/
theorem calculate_month_stem_witness :
    (calculate_core 100 2000 1 1 none 0 true).month_pillar.gan_index
      = (((((calculate_core 100 2000 1 1 none 0 true).year_pillar.gan_index : ℤ) % 5) * 2 + 2
          + (((calculate_core 100 2000 1 1 none 0 true).month_pillar.ji_index : ℤ) - 2) % 12)
          % 10).toNat :=
  calculate_month_stem (fun _ => Except.ok 100) 2000 1 1 none 0 true
    (calculate_core 100 2000 1 1 none 0 true) rfl

/-- C5: when an hour is supplied the hour pillar follows the spec's minute
arithmetic (30-minute solar-time correction with wrap, 2-hour buckets offset
so 23:00 begins branch 0, stem from the day stem); when `hour` is `none` the
hour pillar and hour range are entirely absent. -/
theorem calculate_hour_pillar (lon_at : ℤ → Except String ℚ) (year month day : ℕ)
    (hour : Option ℕ) (minute : ℕ) (ust : Bool) (r : SajuResult)
    (h : calculate lon_at year month day hour minute ust = Except.ok r) :
    (hour = none → r.hour_pillar = none ∧ r.hour_range = none) ∧
    ∀ hh, hour = some hh →
      r.hour_pillar.map Pillar.ji_index = some (spec_hour_branch hh minute ust) ∧
      r.hour_pillar.map Pillar.gan_index
        = some (((r.day_pillar.gan_index % 5) * 2 + spec_hour_branch hh minute ust) % 10) := by
  obtain ⟨-, lon, -, rfl⟩ := (calculate_ok_iff lon_at year month day hour minute ust r).1 h
  constructor
  · rintro rfl
    exact ⟨rfl, rfl⟩
  · rintro hh rfl
    exact ⟨rfl, rfl⟩

/-- C5 witness: the hour-pillar theorem applied with and without an hour. -/
theorem calculate_hour_pillar_witness :
    ((calculate_core 100 2000 1 1 (some 1) 30 true).hour_pillar.map Pillar.ji_index
        = some (spec_hour_branch 1 30 true) ∧
      (calculate_core 100 2000 1 1 (some 1) 30 true).hour_pillar.map Pillar.gan_index
        = some ((((calculate_core 100 2000 1 1 (some 1) 30 true).day_pillar.gan_index % 5) * 2
            + spec_hour_branch 1 30 true) % 10)) ∧
    ((calculate_core 100 2000 1 1 none 0 true).hour_pillar = none ∧
      (calculate_core 100 2000 1 1 none 0 true).hour_range = none) := by
  constructor
  · exact (calculate_hour_pillar (fun _ => Except.ok 100) 2000 1 1 (some 1) 30 true
      (calculate_core 100 2000 1 1 (some 1) 30 true) rfl).2 1 rfl
  · exact (calculate_hour_pillar (fun _ => Except.ok 100) 2000 1 1 none 0 true
      (calculate_core 100 2000 1 1 none 0 true) rfl).1 rfl

/-- C8: every internal failure of `calculate` — provider failure or
out-of-range date/time — is surfaced as the single error kind
`CalculationError`, and a successful call returns the atomically constructed
full record; there is no partial or fallback result. -/
theorem calculate_fail_fast (lon_at : ℤ → Except String ℚ) (year month day : ℕ)
    (hour : Option ℕ) (minute : ℕ) (ust : Bool) :
    (valid_datetime year month day (hour.getD 12) minute = true →
      ∀ e, lon_at (utc_minutes year month day (hour.getD 12) minute) = Except.error e →
        calculate lon_at year month day hour minute ust
          = Except.error ⟨"사주 계산 실패: " ++ e⟩) ∧
    (valid_datetime year month day (hour.getD 12) minute = false →
      calculate lon_at year month day hour minute ust
        = Except.error ⟨"사주 계산 실패: invalid date or time"⟩) ∧
    (valid_datetime year month day (hour.getD 12) minute = true →
      ∀ lon, lon_at (utc_minutes year month day (hour.getD 12) minute) = Except.ok lon →
        calculate lon_at year month day hour minute ust
          = Except.ok (calculate_core lon year month day hour minute ust)) := by
  refine ⟨?_, ?_, ?_⟩
  · intro hv e he
    simp only [calculate]
    rw [if_pos hv, he]
  · intro hv
    simp only [calculate]
    rw [if_neg (by simp [hv])]
  · intro hv lon hl
    simp only [calculate]
    rw [if_pos hv, hl]

/-- C8 witness: the fail-fast theorem applied to a failing provider, an
invalid date (2000-02-30), and a successful call. -/
theorem calculate_fail_fast_witness :
    calculate (fun _ => Except.error "x") 2000 1 1 none 0 true
        = Except.error ⟨"사주 계산 실패: " ++ "x"⟩ ∧
    calculate (fun _ => Except.ok 280) 2000 2 30 none 0 true
        = Except.error ⟨"사주 계산 실패: invalid date or time"⟩ ∧
    calculate (fun _ => Except.ok 280) 2000 1 1 none 0 true
        = Except.ok (calculate_core 280 2000 1 1 none 0 true) :=
  ⟨(calculate_fail_fast (fun _ => Except.error "x") 2000 1 1 none 0 true).1 rfl "x" rfl,
   (calculate_fail_fast (fun _ => Except.ok 280) 2000 2 30 none 0 true).2.1 rfl,
   (calculate_fail_fast (fun _ => Except.ok 280) 2000 1 1 none 0 true).2.2 rfl 280 rfl⟩

/-- C9: flipping `use_solar_time` with all other inputs fixed changes only the
hour pillar, the hour range and the echoed `solar_time_applied` flag; the
year/month/day pillars, day master, longitude sample, resolved term and
boundary metadata are identical, and the flag is echoed back verbatim. -/
theorem solar_time_toggle_frame (lon_at : ℤ → Except String ℚ) (year month day : ℕ)
    (hour : Option ℕ) (minute : ℕ) :
    (calculate lon_at year month day hour minute true).map strip_solar_toggle
      = (calculate lon_at year month day hour minute false).map strip_solar_toggle ∧
    ∀ ust : Bool,
      (calculate lon_at year month day hour minute ust).map
        (fun r => r.meta.solar_time_applied)
      = (calculate lon_at year month day hour minute ust).map (fun _ => ust) := by
  constructor
  · simp only [calculate]
    by_cases hv : valid_datetime year month day (hour.getD 12) minute = true
    · rw [if_pos hv, if_pos hv]
      cases hl : lon_at (utc_minutes year month day (hour.getD 12) minute) with
      | error e => rfl
      | ok lon => rfl
    · rw [if_neg hv, if_neg hv]
  · intro ust
    simp only [calculate]
    by_cases hv : valid_datetime year month day (hour.getD 12) minute = true
    · rw [if_pos hv]
      cases hl : lon_at (utc_minutes year month day (hour.getD 12) minute) with
      | error e => rfl
      | ok lon => rfl
    · rw [if_neg hv]
      rfl

/-- C10: the `timezone` argument of `SajuEngine.calculate` influences nothing
but the echoed `QualityInfo.timezone` field, and the civil input is always
interpreted as Asia/Seoul by subtracting a fixed 9 hours to reach UTC. -/
theorem timezone_no_influence (lon_at : ℤ → Except String ℚ) (year month day : ℕ)
    (hour : Option ℕ) (minute : ℕ) (gender : Option String) (ust : Bool) :
    (∀ tz1 tz2 : String,
      (saju_engine_calculate lon_at year month day hour minute gender tz1 ust).map
          strip_timezone
        = (saju_engine_calculate lon_at year month day hour minute gender tz2 ust).map
          strip_timezone) ∧
    (∀ tz : String,
      (saju_engine_calculate lon_at year month day hour minute gender tz ust).map
          (fun cr => cr.quality.timezone)
        = (saju_engine_calculate lon_at year month day hour minute gender tz ust).map
          (fun _ => tz)) ∧
    (∀ h : ℕ, utc_minutes year month day h minute
        = kst_minutes year month day h minute - 540) := by
  refine ⟨?_, ?_, fun _ => rfl⟩
  · intro tz1 tz2
    simp only [saju_engine_calculate]
    cases hc : calculate lon_at year month day hour minute ust with
    | error e => rfl
    | ok res => rfl
  · intro tz
    simp only [saju_engine_calculate]
    cases hc : calculate lon_at year month day hour minute ust with
    | error e => rfl
    | ok res => rfl

/-! ## Boundary-detection lemmas (C6) -/

theorem boundary_scan_eq_none (deg : ℚ) (l : List ℕ) :
    boundary_scan deg l = none ↔ ∀ b ∈ l, ¬ boundary_diff deg b ≤ 3 / 2 := by
  induction l with
  | nil => simp [boundary_scan]
  | cons c rest ih =>
    rw [boundary_scan]
    split_ifs with hc
    · simp [hc]
    · simp only [List.mem_cons]
      constructor
      · intro h b hb
        rcases hb with rfl | hb
        · exact hc
        · exact (ih.1 h) b hb
      · intro h
        exact ih.2 fun b hb => h b (Or.inr hb)

theorem boundary_scan_eq_some (deg : ℚ) (l : List ℕ) (b : ℕ)
    (h : boundary_scan deg l = some b) : b ∈ l ∧ boundary_diff deg b ≤ 3 / 2 := by
  induction l with
  | nil => simp [boundary_scan] at h
  | cons c rest ih =>
    rw [boundary_scan] at h
    split_ifs at h with hc
    · simp only [Option.some.injEq] at h
      subst h
      exact ⟨List.mem_cons_self _ _, hc⟩
    · obtain ⟨hm, hd⟩ := ih h
      exact ⟨List.mem_cons_of_mem _ hm, hd⟩

theorem boundary_diff_shift (deg : ℚ) (b : ℕ) (h : boundary_diff deg b ≤ 3 / 2) :
    ∃ n : ℤ, |deg - b - 360 * (n : ℚ)| ≤ 3 / 2 := by
  refine ⟨⌊(deg - (b : ℚ) + 180) / 360⌋, ?_⟩
  have he : deg - (b : ℚ) - 360 * ((⌊(deg - (b : ℚ) + 180) / 360⌋ : ℤ) : ℚ)
      = qmod (deg - b + 180) 360 - 180 := by
    unfold qmod
    ring
  rw [he]
  exact h

theorem boundary_unique (deg : ℚ) (j1 j2 : ℕ) (hj1 : j1 < 24) (hj2 : j2 < 24)
    (h1 : boundary_diff deg (15 * j1) ≤ 3 / 2)
    (h2 : boundary_diff deg (15 * j2) ≤ 3 / 2) : j1 = j2 := by
  obtain ⟨n1, e1⟩ := boundary_diff_shift deg (15 * j1) h1
  obtain ⟨n2, e2⟩ := boundary_diff_shift deg (15 * j2) h2
  have key : |(((15 * j2 + 360 * n2) - (15 * j1 + 360 * n1) : ℤ) : ℚ)| ≤ 3 := by
    have hcalc : (((15 * j2 + 360 * n2) - (15 * j1 + 360 * n1) : ℤ) : ℚ)
        = (deg - (15 * j1 : ℕ) - 360 * (n1 : ℚ)) - (deg - (15 * j2 : ℕ) - 360 * (n2 : ℚ)) := by
      push_cast
      ring
    rw [hcalc]
    calc |(deg - (15 * j1 : ℕ) - 360 * (n1 : ℚ)) - (deg - (15 * j2 : ℕ) - 360 * (n2 : ℚ))|
        = |(deg - (15 * j1 : ℕ) - 360 * (n1 : ℚ))
            + -(deg - (15 * j2 : ℕ) - 360 * (n2 : ℚ))| := by ring_nf
      _ ≤ |(deg - (15 * j1 : ℕ) - 360 * (n1 : ℚ))|
            + |-(deg - (15 * j2 : ℕ) - 360 * (n2 : ℚ))| := abs_add _ _
      _ = |(deg - (15 * j1 : ℕ) - 360 * (n1 : ℚ))|
            + |(deg - (15 * j2 : ℕ) - 360 * (n2 : ℚ))| := by rw [abs_neg]
      _ ≤ 3 / 2 + 3 / 2 := add_le_add e1 e2
      _ = 3 := by norm_num
  have hint : ((15 * j2 + 360 * n2) - (15 * j1 + 360 * n1) : ℤ)
      = 15 * (((j2 : ℤ) - j1) + 24 * (n2 - n1)) := by
    ring
  rw [hint] at key
  have hM0 : ((j2 : ℤ) - j1) + 24 * (n2 - n1) = 0 := by
    by_contra hne
    have hone : (1 : ℤ) ≤ |((j2 : ℤ) - j1) + 24 * (n2 - n1)| := Int.one_le_abs hne
    have h15 : (15 : ℤ) ≤ |15 * (((j2 : ℤ) - j1) + 24 * (n2 - n1))| := by
      rw [abs_mul]
      calc (15 : ℤ) = 15 * 1 := by ring
        _ ≤ 15 * |((j2 : ℤ) - j1) + 24 * (n2 - n1)| := by
            exact mul_le_mul_of_nonneg_left hone (by norm_num)
        _ = |(15 : ℤ)| * |((j2 : ℤ) - j1) + 24 * (n2 - n1)| := by norm_num
    have h15q : (15 : ℚ) ≤ |((15 * (((j2 : ℤ) - j1) + 24 * (n2 - n1)) : ℤ) : ℚ)| := by
      calc (15 : ℚ) = ((15 : ℤ) : ℚ) := by norm_num
        _ ≤ ((|15 * (((j2 : ℤ) - j1) + 24 * (n2 - n1))| : ℤ) : ℚ) := by exact_mod_cast h15
        _ = |((15 * (((j2 : ℤ) - j1) + 24 * (n2 - n1)) : ℤ) : ℚ)| := by
            rw [Int.cast_abs]
    linarith [key, h15q]
  omega

theorem BOUNDARIES_eq : BOUNDARIES = (List.range 24).map (fun k => 15 * k) := by decide

theorem mem_BOUNDARIES (b : ℕ) : b ∈ BOUNDARIES ↔ ∃ k, k < 24 ∧ b = 15 * k := by
  rw [BOUNDARIES_eq]
  simp [List.mem_map, List.mem_range, eq_comm]

theorem is_near_boundary_of_none (deg : ℚ) (h : boundary_scan deg BOUNDARIES = none) :
    is_near_boundary deg = (false, none) := by
  unfold is_near_boundary
  rw [h]

theorem is_near_boundary_of_some (deg : ℚ) (b : ℕ)
    (h : boundary_scan deg BOUNDARIES = some b) :
    is_near_boundary deg
      = (true, some (if b == 315 then "near_ipchun" else "near_term_change")) := by
  unfold is_near_boundary
  rw [h]

theorem boundary_scan_at_315 : boundary_scan 315 BOUNDARIES = some 315 := by
  simp only [BOUNDARIES, boundary_scan]
  norm_num [boundary_diff, qmod, abs_le]

/-- C6 (amended): the boundary flag is true exactly when some multiple of 15°
in [0°, 360°) lies within 1.5° circular distance of the longitude (at most one
can, since the boundaries are 15° apart); the reason is `"near_ipchun"` — not
`"near_spring_start"` as the spec words it — when the matched boundary is
315°, `"near_term_change"` for any other matched boundary, and absent when the
flag is false. -/
theorem near_boundary_flag (deg : ℚ) :
    ((is_near_boundary deg).1 = true ↔ ∃ k, k < 24 ∧ boundary_diff deg (15 * k) ≤ 3 / 2) ∧
    (boundary_diff deg 315 ≤ 3 / 2 → is_near_boundary deg = (true, some "near_ipchun")) ∧
    ((is_near_boundary deg).1 = true → ¬ boundary_diff deg 315 ≤ 3 / 2 →
      (is_near_boundary deg).2 = some "near_term_change") ∧
    ((is_near_boundary deg).1 = false → (is_near_boundary deg).2 = none) := by
  refine ⟨?_, ?_, ?_, ?_⟩
  · cases hscan : boundary_scan deg BOUNDARIES with
    | none =>
      rw [is_near_boundary_of_none deg hscan]
      constructor
      · intro h
        exact absurd h (by simp)
      · rintro ⟨k, hk, hd⟩
        exact absurd hd ((boundary_scan_eq_none deg BOUNDARIES).1 hscan (15 * k)
          ((mem_BOUNDARIES _).2 ⟨k, hk, rfl⟩))
    | some b =>
      rw [is_near_boundary_of_some deg b hscan]
      obtain ⟨hmemb, hd⟩ := boundary_scan_eq_some deg BOUNDARIES b hscan
      obtain ⟨k, hk, rfl⟩ := (mem_BOUNDARIES b).1 hmemb
      exact iff_of_true rfl ⟨k, hk, hd⟩
  · intro h315
    have h21 : boundary_diff deg (15 * 21) ≤ 3 / 2 := h315
    cases hscan : boundary_scan deg BOUNDARIES with
    | none =>
      exact absurd h315 ((boundary_scan_eq_none deg BOUNDARIES).1 hscan 315 (by decide))
    | some b =>
      obtain ⟨hmemb, hd⟩ := boundary_scan_eq_some deg BOUNDARIES b hscan
      obtain ⟨k, hk, rfl⟩ := (mem_BOUNDARIES b).1 hmemb
      have hk21 : k = 21 := boundary_unique deg k 21 hk (by norm_num) hd h21
      subst hk21
      rw [is_near_boundary_of_some deg (15 * 21) hscan]
      rfl
  · intro hflag hn315
    cases hscan : boundary_scan deg BOUNDARIES with
    | none =>
      rw [is_near_boundary_of_none deg hscan] at hflag
      exact absurd hflag (by simp)
    | some b =>
      obtain ⟨hmemb, hd⟩ := boundary_scan_eq_some deg BOUNDARIES b hscan
      have hb : b ≠ 315 := by
        rintro rfl
        exact hn315 hd
      rw [is_near_boundary_of_some deg b hscan]
      simp [hb]
  · intro hflag
    cases hscan : boundary_scan deg BOUNDARIES with
    | none => rw [is_near_boundary_of_none deg hscan]
    | some b =>
      rw [is_near_boundary_of_some deg b hscan] at hflag
      exact absurd hflag (by simp)

/-- C6 witness: the boundary theorem applied at longitudes 315° (spring
start) and 1° (near the 0° boundary). -/
theorem near_boundary_flag_witness :
    is_near_boundary 315 = (true, some "near_ipchun") ∧
    (is_near_boundary 1).2 = some "near_term_change" := by
  constructor
  · exact (near_boundary_flag 315).2.1 (by norm_num [boundary_diff, qmod])
  · exact (near_boundary_flag 1).2.2.1
      (((near_boundary_flag 1).1).2 ⟨0, by norm_num, by norm_num [boundary_diff, qmod]⟩)
      (by norm_num [boundary_diff, qmod])

/-- C6 counterexample: at longitude 315° the code's boundary reason is the
string `"near_ipchun"`, not `"near_spring_start"` as the claim states. -/
theorem near_boundary_reason_counterexample :
    (is_near_boundary 315).2 = some "near_ipchun" ∧
    some "near_ipchun" ≠ some "near_spring_start" := by
  constructor
  · rw [is_near_boundary_of_some 315 315 boundary_scan_at_315]
    rfl
  · decide

theorem floor_div_thirty_eq (j : ℤ) (d : ℚ) (hlo : 30 * (j : ℚ) ≤ d + 45)
    (hhi : d + 45 < 30 * (j : ℚ) + 30) : ⌊(d + 45) / 30⌋ = j := by
  rw [Int.floor_eq_iff]
  constructor
  · rw [le_div_iff₀ (by norm_num : (0 : ℚ) < 30)]
    linarith
  · rw [div_lt_iff₀ (by norm_num : (0 : ℚ) < 30)]
    linarith

/-- C7 (amended): each of the 24 fifteen-degree boundaries falls into one of
two classes, and only the twelve at longitudes ≡ 15° (mod 30°) — spring start
315°, 345°, 15°, … — begin a new month. For any two longitudes straddling
such a month-start boundary, each lying within the adjacent term on its side,
the later month-branch index is exactly one more (mod 12) than the earlier;
crossing any of the other twelve boundaries, at multiples of 30°, leaves the
month branch unchanged. -/
theorem term_boundary_advance :
    (∀ (k : ℕ) (d1 d2 : ℚ),
      30 * (k : ℚ) - 15 ≤ d1 → d1 < 30 * (k : ℚ) + 15 →
      30 * (k : ℚ) + 15 ≤ d2 → d2 < 30 * (k : ℚ) + 45 →
      (get_solar_term_index d2).1 = ((get_solar_term_index d1).1 + 1) % 12) ∧
    (∀ (k : ℕ) (d1 d2 : ℚ),
      30 * (k : ℚ) - 15 ≤ d1 → d1 < 30 * (k : ℚ) →
      30 * (k : ℚ) ≤ d2 → d2 < 30 * (k : ℚ) + 15 →
      (get_solar_term_index d2).1 = (get_solar_term_index d1).1) := by
  constructor
  · intro k d1 d2 h1 h2 h3 h4
    have f1 : ⌊(d1 + 45) / 30⌋ = (k : ℤ) + 1 :=
      floor_div_thirty_eq _ _ (by push_cast; linarith) (by push_cast; linarith)
    have f2 : ⌊(d2 + 45) / 30⌋ = (k : ℤ) + 2 :=
      floor_div_thirty_eq _ _ (by push_cast; linarith) (by push_cast; linarith)
    have t1 := term_idx_cast d1
    have t2 := term_idx_cast d2
    rw [f1] at t1
    rw [f2] at t2
    omega
  · intro k d1 d2 h1 h2 h3 h4
    have f1 : ⌊(d1 + 45) / 30⌋ = (k : ℤ) + 1 :=
      floor_div_thirty_eq _ _ (by push_cast; linarith) (by push_cast; linarith)
    have f2 : ⌊(d2 + 45) / 30⌋ = (k : ℤ) + 1 :=
      floor_div_thirty_eq _ _ (by push_cast; linarith) (by push_cast; linarith)
    have t1 := term_idx_cast d1
    have t2 := term_idx_cast d2
    rw [f1] at t1
    rw [f2] at t2
    omega

/-- C7 witness: the theorem applied across the month-start boundary at 15°
(month branch 3 → 4) and across the mid-term boundary at 30° (longitudes 29°
and 31°, month branch unchanged). -/
theorem term_boundary_advance_witness :
    (get_solar_term_index 15).1 = ((get_solar_term_index 0).1 + 1) % 12 ∧
    (get_solar_term_index 31).1 = (get_solar_term_index 29).1 :=
  ⟨term_boundary_advance.1 0 0 15 (by norm_num) (by norm_num) (by norm_num) (by norm_num),
   term_boundary_advance.2 1 29 31 (by norm_num) (by norm_num) (by norm_num) (by norm_num)⟩

/-- C7 counterexample: longitudes 359.5° and 0.5° straddle the 0° boundary
(one of the 24 fifteen-degree boundaries) without crossing any other boundary,
yet both resolve to month-branch index 3 — the branch does not advance, so
not every 15° boundary advances the month branch. -/
theorem term_boundary_advance_counterexample :
    (get_solar_term_index (719 / 2)).1 = 3 ∧ (get_solar_term_index (1 / 2)).1 = 3 ∧
    (3 : ℕ) ≠ (3 + 1) % 12 := by
  refine ⟨?_, ?_, by decide⟩ <;>
    (norm_num [get_solar_term_index, qmod]
     decide)

end Saju
